import Mathlib

/-!
Verification of the vision range resolver of the pf2eVision Foundry VTT
plugin.  The repository ships two revisions of the module:

* Scripts  — src/scripts/pf2e-vision-config.js
* Part000  — src/unnamed/part_000

Both revisions implement a calculateTotalVision method (feet/miles to a
rounded total in feet) and a calculateVisionRanges method (total plus a
vision-type tag to a pair of rounded range fields).  The resolver of the
specification is the composition used in onPreUpdateToken of both files:
first calculateTotalVision, then calculateVisionRanges on the result.

Numbers are modelled as rationals.  JavaScript coercion (the Number(x) || 0
idiom) is modelled by the type JSVal below: a value either carries a
rational or is non-numeric (NaN and friends), and coercion sends the latter
to 0.  Math.round is modelled exactly: Math.round x is the floor of
x + 1/2, for negative arguments as well.
-/

set_option autoImplicit false

/-- A JavaScript value fed to the numeric coercion idiom: either a finite
number (modelled as a rational) or a value whose Number conversion is NaN. -/
inductive JSVal where
  | num (q : ℚ)
  | nonNumeric
deriving DecidableEq

/-- Models the JavaScript idiom Number(x) || 0: a finite number is kept
(0 stays 0 since 0 is falsy and the alternative is again 0), and a
non-numeric value, whose Number conversion is NaN, becomes 0. -/
def coerce : JSVal → ℚ
  | JSVal.num q => q
  | JSVal.nonNumeric => 0

/-- JavaScript Math.round: rounds to the nearest integer, halves toward
positive infinity, which is exactly the floor of q + 1/2. -/
def jsRound (q : ℚ) : ℤ := ⌊q + 1 / 2⌋

/-- The record returned by calculateVisionRanges in both revisions:
the lit-vision range and the darkness-vision range, both already rounded. -/
structure VisionRanges where
  range : ℤ
  darknessRange : ℤ
deriving DecidableEq

namespace Scripts

/-- calculateTotalVision of src/scripts/pf2e-vision-config.js (lines
272-276): coerce both inputs, convert miles at 5280 feet per mile, round. -/
def calculateTotalVision (feet miles : JSVal) : ℤ :=
  let feetValue := coerce feet
  let milesValue := coerce miles
  jsRound (feetValue + milesValue * 5280)

/-- calculateVisionRanges of src/scripts/pf2e-vision-config.js (lines
350-391).  This revision caps each case: normal at 1000 ft, low-light at
2000 ft, darkvision at 1000 ft of darkness, blindsight at 500 ft of
darkness, tremorsense at 300 ft of lit range (darkness 0), and the default
case repeats the normal case.  Both fields are rounded on return. -/
def calculateVisionRanges (totalVision : JSVal) (visionType : String) : VisionRanges :=
  let totalVisionValue := coerce totalVision
  let pair : ℚ × ℚ :=
    if visionType = "normal" then (min totalVisionValue 1000, 0)
    else if visionType = "low-light" then (min (totalVisionValue * 2) 2000, 0)
    else if visionType = "darkvision" then (0, min totalVisionValue 1000)
    else if visionType = "blindsight" then (0, min totalVisionValue 500)
    else if visionType = "tremorsense" then (min totalVisionValue 300, 0)
    else (min totalVisionValue 1000, 0)
  { range := jsRound pair.1, darknessRange := jsRound pair.2 }

/-- The resolver of the specification, as composed in onPreUpdateToken of
src/scripts/pf2e-vision-config.js (lines 296-342): the rounded total is fed
to calculateVisionRanges. -/
def resolve (feet miles : JSVal) (visionType : String) : VisionRanges :=
  calculateVisionRanges (JSVal.num (calculateTotalVision feet miles)) visionType

end Scripts

namespace Part000

/-- calculateTotalVision of src/unnamed/part_000 (lines 296-300), textually
identical to the Scripts revision. -/
def calculateTotalVision (feet miles : JSVal) : ℤ :=
  let feetValue := coerce feet
  let milesValue := coerce miles
  jsRound (feetValue + milesValue * 5280)

/-- calculateVisionRanges of src/unnamed/part_000 (lines 427-468).  This
revision applies no caps: normal and the default case use the raw total,
low-light doubles it, and darkvision, blindsight and tremorsense all put the
raw total in the darkness field.  Both fields are rounded on return. -/
def calculateVisionRanges (totalVision : JSVal) (visionType : String) : VisionRanges :=
  let totalVisionValue := coerce totalVision
  let pair : ℚ × ℚ :=
    if visionType = "normal" then (totalVisionValue, 0)
    else if visionType = "low-light" then (totalVisionValue * 2, 0)
    else if visionType = "darkvision" then (0, totalVisionValue)
    else if visionType = "blindsight" then (0, totalVisionValue)
    else if visionType = "tremorsense" then (0, totalVisionValue)
    else (totalVisionValue, 0)
  { range := jsRound pair.1, darknessRange := jsRound pair.2 }

/-- The resolver of the specification, as composed in onPreUpdateToken of
src/unnamed/part_000 (lines 330-376): the rounded total is fed to
calculateVisionRanges. -/
def resolve (feet miles : JSVal) (visionType : String) : VisionRanges :=
  calculateVisionRanges (JSVal.num (calculateTotalVision feet miles)) visionType

end Part000

/-- The total-distance formula as the claims and the spec word it:
round(coerce(feet) + coerce(miles) times 5280).  It is kept as a separate
definition so that the refinement claim about the two revisions can compare
each source embedding against the spec wording. -/
def specTotalVisionFormula (feet miles : JSVal) : ℤ :=
  jsRound (coerce feet + coerce miles * 5280)

/-- Holds when exactly one of the two fields of a VisionRanges record is
non-zero. -/
def exactlyOneNonzero (r : VisionRanges) : Prop :=
  (r.range ≠ 0 ∧ r.darknessRange = 0) ∨ (r.range = 0 ∧ r.darknessRange ≠ 0)

/-- The mutable state of the module instance created at load time: the
one-shot guard set by the initialize method.  The two calculation methods
never read or write it; the state-passing embeddings below thread it
through explicitly so that purity of the resolver can be stated. -/
structure ModuleState where
  guardFlag : Bool
deriving DecidableEq

/-- State-passing embedding of the resolver composition of
src/scripts/pf2e-vision-config.js, as it runs inside onPreUpdateToken: the
method reads the two calculation methods off the instance, neither of which
touches any instance field, and the instance state is returned unchanged. -/
def Scripts.resolveM (self : ModuleState) (feet miles : JSVal) (visionType : String) :
    VisionRanges × ModuleState :=
  let totalDaylightVision := Scripts.calculateTotalVision feet miles
  let visionRanges := Scripts.calculateVisionRanges (JSVal.num totalDaylightVision) visionType
  (visionRanges, self)

/-- State-passing embedding of the resolver composition of
src/unnamed/part_000, as it runs inside onPreUpdateToken; as in the Scripts
revision, no instance field is read or written. -/
def Part000.resolveM (self : ModuleState) (feet miles : JSVal) (visionType : String) :
    VisionRanges × ModuleState :=
  let totalDaylightVision := Part000.calculateTotalVision feet miles
  let visionRanges := Part000.calculateVisionRanges (JSVal.num totalDaylightVision) visionType
  (visionRanges, self)

/-! ## Helper lemmas about jsRound and coercion -/

theorem coerce_num (q : ℚ) : coerce (JSVal.num q) = q := rfl

theorem jsRound_intCast (n : ℤ) : jsRound ((n : ℚ)) = n := by
  unfold jsRound
  rw [Int.floor_int_add]
  norm_num

theorem jsRound_zero : jsRound 0 = 0 := by
  simpa using jsRound_intCast 0

theorem jsRound_nonneg {q : ℚ} (h : 0 ≤ q) : 0 ≤ jsRound q := by
  refine Int.le_floor.2 ?_
  push_cast
  linarith

theorem jsRound_mono {a b : ℚ} (h : a ≤ b) : jsRound a ≤ jsRound b :=
  Int.floor_le_floor (by linarith)

theorem jsRound_le_intCast {q : ℚ} {c : ℤ} (h : q ≤ (c : ℚ)) : jsRound q ≤ c := by
  have hm := jsRound_mono h
  rwa [jsRound_intCast] at hm

theorem jsRound_pos {q : ℚ} (h : 1 ≤ q) : 0 < jsRound q := by
  have h1 : (1 : ℤ) ≤ jsRound q := by
    refine Int.le_floor.2 ?_
    push_cast
    linarith
  omega

theorem intCast_min (a b : ℤ) : ((min a b : ℤ) : ℚ) = min (a : ℚ) (b : ℚ) := by
  rcases le_total a b with h | h
  · rw [min_eq_left h, min_eq_left (by exact_mod_cast h)]
  · rw [min_eq_right h, min_eq_right (by exact_mod_cast h)]

theorem jsRound_min_intCast (n c : ℤ) : jsRound (min ((n : ℚ)) ((c : ℚ))) = min n c := by
  rw [← intCast_min, jsRound_intCast]

/-! ## Evaluation lemmas for the two revisions -/

theorem scripts_ctv_eq (f m : ℚ) :
    Scripts.calculateTotalVision (JSVal.num f) (JSVal.num m) = jsRound (f + m * 5280) := rfl

theorem part000_ctv_eq (f m : ℚ) :
    Part000.calculateTotalVision (JSVal.num f) (JSVal.num m) = jsRound (f + m * 5280) := rfl

theorem scripts_ctv_int (f m : ℤ) :
    Scripts.calculateTotalVision (JSVal.num (f : ℚ)) (JSVal.num (m : ℚ)) = f + m * 5280 := by
  rw [scripts_ctv_eq]
  have h : (f : ℚ) + (m : ℚ) * 5280 = ((f + m * 5280 : ℤ) : ℚ) := by push_cast; ring
  rw [h, jsRound_intCast]

theorem part000_ctv_int (f m : ℤ) :
    Part000.calculateTotalVision (JSVal.num (f : ℚ)) (JSVal.num (m : ℚ)) = f + m * 5280 := by
  rw [part000_ctv_eq]
  have h : (f : ℚ) + (m : ℚ) * 5280 = ((f + m * 5280 : ℤ) : ℚ) := by push_cast; ring
  rw [h, jsRound_intCast]

theorem scripts_ranges_normal (t : JSVal) :
    Scripts.calculateVisionRanges t "normal"
      = ⟨jsRound (min (coerce t) 1000), jsRound 0⟩ := rfl

theorem scripts_ranges_lowlight (t : JSVal) :
    Scripts.calculateVisionRanges t "low-light"
      = ⟨jsRound (min (coerce t * 2) 2000), jsRound 0⟩ := rfl

theorem scripts_ranges_darkvision (t : JSVal) :
    Scripts.calculateVisionRanges t "darkvision"
      = ⟨jsRound 0, jsRound (min (coerce t) 1000)⟩ := rfl

theorem scripts_ranges_blindsight (t : JSVal) :
    Scripts.calculateVisionRanges t "blindsight"
      = ⟨jsRound 0, jsRound (min (coerce t) 500)⟩ := rfl

theorem scripts_ranges_tremorsense (t : JSVal) :
    Scripts.calculateVisionRanges t "tremorsense"
      = ⟨jsRound (min (coerce t) 300), jsRound 0⟩ := rfl

theorem scripts_ranges_fallback (t : JSVal) (vt : String)
    (h1 : vt ≠ "normal") (h2 : vt ≠ "low-light") (h3 : vt ≠ "darkvision")
    (h4 : vt ≠ "blindsight") (h5 : vt ≠ "tremorsense") :
    Scripts.calculateVisionRanges t vt = Scripts.calculateVisionRanges t "normal" := by
  unfold Scripts.calculateVisionRanges
  simp only [if_neg h1, if_neg h2, if_neg h3, if_neg h4, if_neg h5, if_true]

theorem part000_ranges_normal (t : JSVal) :
    Part000.calculateVisionRanges t "normal" = ⟨jsRound (coerce t), jsRound 0⟩ := rfl

theorem part000_ranges_lowlight (t : JSVal) :
    Part000.calculateVisionRanges t "low-light" = ⟨jsRound (coerce t * 2), jsRound 0⟩ := rfl

theorem part000_ranges_darkvision (t : JSVal) :
    Part000.calculateVisionRanges t "darkvision" = ⟨jsRound 0, jsRound (coerce t)⟩ := rfl

theorem part000_ranges_blindsight (t : JSVal) :
    Part000.calculateVisionRanges t "blindsight" = ⟨jsRound 0, jsRound (coerce t)⟩ := rfl

theorem part000_ranges_tremorsense (t : JSVal) :
    Part000.calculateVisionRanges t "tremorsense" = ⟨jsRound 0, jsRound (coerce t)⟩ := rfl

theorem part000_ranges_fallback (t : JSVal) (vt : String)
    (h1 : vt ≠ "normal") (h2 : vt ≠ "low-light") (h3 : vt ≠ "darkvision")
    (h4 : vt ≠ "blindsight") (h5 : vt ≠ "tremorsense") :
    Part000.calculateVisionRanges t vt = Part000.calculateVisionRanges t "normal" := by
  unfold Part000.calculateVisionRanges
  simp only [if_neg h1, if_neg h2, if_neg h3, if_neg h4, if_neg h5, if_true]

theorem jsRound_intCast_mul_two (n : ℤ) : jsRound ((n : ℚ) * 2) = 2 * n := by
  have h : (n : ℚ) * 2 = ((2 * n : ℤ) : ℚ) := by push_cast; ring
  rw [h, jsRound_intCast]

theorem scripts_resolve_eq (f m : JSVal) (vt : String) :
    Scripts.resolve f m vt
      = Scripts.calculateVisionRanges
          (JSVal.num ((Scripts.calculateTotalVision f m : ℤ) : ℚ)) vt := rfl

theorem part000_resolve_eq (f m : JSVal) (vt : String) :
    Part000.resolve f m vt
      = Part000.calculateVisionRanges
          (JSVal.num ((Part000.calculateTotalVision f m : ℤ) : ℚ)) vt := rfl

theorem totals_agree (f m : JSVal) :
    Scripts.calculateTotalVision f m = Part000.calculateTotalVision f m := rfl

/-- The rounded total is non-negative whenever both coerced inputs are. -/
theorem ctv_nonneg (f m : JSVal) (hf : 0 ≤ coerce f) (hm : 0 ≤ coerce m) :
    0 ≤ Scripts.calculateTotalVision f m :=
  jsRound_nonneg (add_nonneg hf (mul_nonneg hm (by norm_num)))

/-- The rounded total is monotone in both numeric inputs. -/
theorem ctv_mono (f₁ m₁ f₂ m₂ : ℚ) (hf : f₁ ≤ f₂) (hm : m₁ ≤ m₂) :
    Scripts.calculateTotalVision (JSVal.num f₁) (JSVal.num m₁)
      ≤ Scripts.calculateTotalVision (JSVal.num f₂) (JSVal.num m₂) :=
  jsRound_mono (by simp only [coerce_num]; linarith)

/-- Both fields of the Scripts revision are non-negative at a non-negative
coerced total. -/
theorem scripts_ranges_nonneg (t : JSVal) (ht : 0 ≤ coerce t) (vt : String) :
    0 ≤ (Scripts.calculateVisionRanges t vt).range ∧
      0 ≤ (Scripts.calculateVisionRanges t vt).darknessRange := by
  unfold Scripts.calculateVisionRanges
  dsimp only
  split_ifs <;> dsimp only <;>
    refine ⟨jsRound_nonneg ?_, jsRound_nonneg ?_⟩ <;>
      first
        | exact le_rfl
        | exact le_min ht (by norm_num)
        | exact le_min (by linarith) (by norm_num)

/-- Both fields of the Part000 revision are non-negative at a non-negative
coerced total. -/
theorem part000_ranges_nonneg (t : JSVal) (ht : 0 ≤ coerce t) (vt : String) :
    0 ≤ (Part000.calculateVisionRanges t vt).range ∧
      0 ≤ (Part000.calculateVisionRanges t vt).darknessRange := by
  unfold Part000.calculateVisionRanges
  dsimp only
  split_ifs <;> dsimp only <;>
    refine ⟨jsRound_nonneg ?_, jsRound_nonneg ?_⟩ <;>
      first
        | exact le_rfl
        | exact ht
        | linarith

/-- Both fields of the Scripts revision are monotone in the total. -/
theorem scripts_ranges_mono (t₁ t₂ : ℚ) (h : t₁ ≤ t₂) (vt : String) :
    (Scripts.calculateVisionRanges (JSVal.num t₁) vt).range
        ≤ (Scripts.calculateVisionRanges (JSVal.num t₂) vt).range ∧
      (Scripts.calculateVisionRanges (JSVal.num t₁) vt).darknessRange
        ≤ (Scripts.calculateVisionRanges (JSVal.num t₂) vt).darknessRange := by
  unfold Scripts.calculateVisionRanges
  dsimp only [coerce]
  split_ifs <;> dsimp only <;>
    refine ⟨jsRound_mono ?_, jsRound_mono ?_⟩ <;>
      first
        | exact le_rfl
        | exact min_le_min h le_rfl
        | exact min_le_min (by linarith) le_rfl

/-- Both fields of the Part000 revision are monotone in the total. -/
theorem part000_ranges_mono (t₁ t₂ : ℚ) (h : t₁ ≤ t₂) (vt : String) :
    (Part000.calculateVisionRanges (JSVal.num t₁) vt).range
        ≤ (Part000.calculateVisionRanges (JSVal.num t₂) vt).range ∧
      (Part000.calculateVisionRanges (JSVal.num t₁) vt).darknessRange
        ≤ (Part000.calculateVisionRanges (JSVal.num t₂) vt).darknessRange := by
  unfold Part000.calculateVisionRanges
  dsimp only [coerce]
  split_ifs <;> dsimp only <;>
    refine ⟨jsRound_mono ?_, jsRound_mono ?_⟩ <;>
      first
        | exact le_rfl
        | exact h
        | linarith

/-- The Part000 resolver realizes the policy table of the specification,
with the raw rounded total and no caps. -/
theorem part000_policy (f m : ℚ) :
    Part000.resolve (JSVal.num f) (JSVal.num m) "normal"
        = ⟨Part000.calculateTotalVision (JSVal.num f) (JSVal.num m), 0⟩ ∧
      Part000.resolve (JSVal.num f) (JSVal.num m) "low-light"
        = ⟨2 * Part000.calculateTotalVision (JSVal.num f) (JSVal.num m), 0⟩ ∧
      Part000.resolve (JSVal.num f) (JSVal.num m) "darkvision"
        = ⟨0, Part000.calculateTotalVision (JSVal.num f) (JSVal.num m)⟩ ∧
      Part000.resolve (JSVal.num f) (JSVal.num m) "blindsight"
        = ⟨0, Part000.calculateTotalVision (JSVal.num f) (JSVal.num m)⟩ ∧
      Part000.resolve (JSVal.num f) (JSVal.num m) "tremorsense"
        = ⟨0, Part000.calculateTotalVision (JSVal.num f) (JSVal.num m)⟩ := by
  refine ⟨?_, ?_, ?_, ?_, ?_⟩
  · rw [part000_resolve_eq, part000_ranges_normal, coerce_num, jsRound_zero, jsRound_intCast]
  · rw [part000_resolve_eq, part000_ranges_lowlight, coerce_num, jsRound_zero,
      jsRound_intCast_mul_two]
  · rw [part000_resolve_eq, part000_ranges_darkvision, coerce_num, jsRound_zero, jsRound_intCast]
  · rw [part000_resolve_eq, part000_ranges_blindsight, coerce_num, jsRound_zero, jsRound_intCast]
  · rw [part000_resolve_eq, part000_ranges_tremorsense, coerce_num, jsRound_zero, jsRound_intCast]

/-- The Scripts revision keeps every case below its hard cap. -/
theorem scripts_caps (f m : ℚ) :
    (Scripts.resolve (JSVal.num f) (JSVal.num m) "normal").range ≤ 1000 ∧
      (Scripts.resolve (JSVal.num f) (JSVal.num m) "low-light").range ≤ 2000 ∧
      (Scripts.resolve (JSVal.num f) (JSVal.num m) "blindsight").darknessRange ≤ 500 ∧
      (Scripts.resolve (JSVal.num f) (JSVal.num m) "tremorsense").range ≤ 300 := by
  refine ⟨?_, ?_, ?_, ?_⟩
  · rw [scripts_resolve_eq, scripts_ranges_normal, coerce_num]
    exact jsRound_le_intCast (le_trans (min_le_right _ _) (by norm_num))
  · rw [scripts_resolve_eq, scripts_ranges_lowlight, coerce_num]
    exact jsRound_le_intCast (le_trans (min_le_right _ _) (by norm_num))
  · rw [scripts_resolve_eq, scripts_ranges_blindsight, coerce_num]
    exact jsRound_le_intCast (le_trans (min_le_right _ _) (by norm_num))
  · rw [scripts_resolve_eq, scripts_ranges_tremorsense, coerce_num]
    exact jsRound_le_intCast (le_trans (min_le_right _ _) (by norm_num))

/-! ## Claim theorems -/

/-- Claim C1, counterexample: the Scripts revision does not follow the
policy table of the specification.  At feet 30, miles 0 and tremorsense it
returns range 30 and darkness 0, not the claimed range 0 and darkness 30. -/
theorem claim_C1_counterexample :
    Scripts.resolve (JSVal.num 30) (JSVal.num 0) "tremorsense" = ⟨30, 0⟩ ∧
      Scripts.resolve (JSVal.num 30) (JSVal.num 0) "tremorsense" ≠ ⟨0, 30⟩ := by
  have h : Scripts.resolve (JSVal.num 30) (JSVal.num 0) "tremorsense" = ⟨30, 0⟩ := by
    rw [scripts_resolve_eq, scripts_ranges_tremorsense, coerce_num, jsRound_zero]
    norm_num [Scripts.calculateTotalVision, coerce, jsRound, VisionRanges.mk.injEq, min_def]
  refine ⟨h, ?_⟩
  rw [h]
  decide

/-- Claim C1, amended: the Part000 revision of the resolver returns exactly
the policy-table result for every non-negative feet and miles — normal maps
to the raw total, low-light to twice the total, and darkvision, blindsight
and tremorsense each put the total in the darkness field; the Scripts
revision instead applies caps and maps tremorsense to the lit range. -/
theorem claim_C1_part000_policy (f m : ℚ) (_hf : 0 ≤ f) (_hm : 0 ≤ m) :
    Part000.resolve (JSVal.num f) (JSVal.num m) "normal"
        = ⟨Part000.calculateTotalVision (JSVal.num f) (JSVal.num m), 0⟩ ∧
      Part000.resolve (JSVal.num f) (JSVal.num m) "low-light"
        = ⟨2 * Part000.calculateTotalVision (JSVal.num f) (JSVal.num m), 0⟩ ∧
      Part000.resolve (JSVal.num f) (JSVal.num m) "darkvision"
        = ⟨0, Part000.calculateTotalVision (JSVal.num f) (JSVal.num m)⟩ ∧
      Part000.resolve (JSVal.num f) (JSVal.num m) "blindsight"
        = ⟨0, Part000.calculateTotalVision (JSVal.num f) (JSVal.num m)⟩ ∧
      Part000.resolve (JSVal.num f) (JSVal.num m) "tremorsense"
        = ⟨0, Part000.calculateTotalVision (JSVal.num f) (JSVal.num m)⟩ :=
  part000_policy f m

/-- Claim C1, witness: the amended theorem applied at feet 30, miles 0 and
tremorsense, matching the specification example. -/
theorem claim_C1_witness :
    Part000.resolve (JSVal.num 30) (JSVal.num 0) "tremorsense" = ⟨0, 30⟩ := by
  have h := (claim_C1_part000_policy 30 0 (by decide) (by decide)).2.2.2.2
  rw [h]
  norm_num [Part000.calculateTotalVision, coerce, jsRound, VisionRanges.mk.injEq]

/-- Claim C2, counterexample: in the Scripts revision the claimed example
fails; resolve at feet 0, miles 1 and normal returns range 1000 because of
the 1000 ft cap, not the claimed 5280. -/
theorem claim_C2_counterexample :
    Scripts.resolve (JSVal.num 0) (JSVal.num 1) "normal" = ⟨1000, 0⟩ ∧
      Scripts.resolve (JSVal.num 0) (JSVal.num 1) "normal" ≠ ⟨5280, 0⟩ := by
  have h : Scripts.resolve (JSVal.num 0) (JSVal.num 1) "normal" = ⟨1000, 0⟩ := by
    rw [scripts_resolve_eq, scripts_ranges_normal, coerce_num, jsRound_zero]
    norm_num [Scripts.calculateTotalVision, coerce, jsRound, VisionRanges.mk.injEq, min_def]
  refine ⟨h, ?_⟩
  rw [h]
  decide

/-- Claim C2, amended: in both revisions the total-distance step computes
round(feet plus miles times 5280), and on integer inputs the result is the
exact integer feet plus miles times 5280 with no rounding; the example
resolve at feet 0, miles 1 and normal yields range 5280 in the Part000
revision (the Scripts revision caps it at 1000). -/
theorem claim_C2_total_exact :
    (∀ f m : ℚ, 0 ≤ f → 0 ≤ m →
        Scripts.calculateTotalVision (JSVal.num f) (JSVal.num m) = jsRound (f + m * 5280) ∧
          Part000.calculateTotalVision (JSVal.num f) (JSVal.num m) = jsRound (f + m * 5280)) ∧
      (∀ f m : ℤ,
        Scripts.calculateTotalVision (JSVal.num (f : ℚ)) (JSVal.num (m : ℚ)) = f + m * 5280 ∧
          Part000.calculateTotalVision (JSVal.num (f : ℚ)) (JSVal.num (m : ℚ)) = f + m * 5280) ∧
      Part000.resolve (JSVal.num 0) (JSVal.num 1) "normal" = ⟨5280, 0⟩ := by
  refine ⟨fun f m _ _ => ⟨rfl, rfl⟩, fun f m => ⟨scripts_ctv_int f m, part000_ctv_int f m⟩, ?_⟩
  rw [part000_resolve_eq, part000_ranges_normal, coerce_num, jsRound_zero]
  norm_num [Part000.calculateTotalVision, coerce, jsRound, VisionRanges.mk.injEq]

/-- Claim C2, witness: the total-distance formula instantiated at feet 2
and miles 3. -/
theorem claim_C2_witness :
    Scripts.calculateTotalVision (JSVal.num 2) (JSVal.num 3) = jsRound (2 + 3 * 5280) :=
  (claim_C2_total_exact.1 2 3 (by decide) (by decide)).1

/-- Claim C3: the two revisions differ exactly as the specification
describes the clamping ambiguity — for every non-negative input the Scripts
revision keeps normal below 1000 ft, low-light below 2000 ft, blindsight
below 500 ft of darkness and tremorsense below 300 ft, while the Part000
revision applies no caps and returns the raw rounded total per the policy
table. -/
theorem claim_C3_clamping_divergence (f m : ℚ) (_hf : 0 ≤ f) (_hm : 0 ≤ m) :
    ((Scripts.resolve (JSVal.num f) (JSVal.num m) "normal").range ≤ 1000 ∧
        (Scripts.resolve (JSVal.num f) (JSVal.num m) "low-light").range ≤ 2000 ∧
        (Scripts.resolve (JSVal.num f) (JSVal.num m) "blindsight").darknessRange ≤ 500 ∧
        (Scripts.resolve (JSVal.num f) (JSVal.num m) "tremorsense").range ≤ 300) ∧
      (Part000.resolve (JSVal.num f) (JSVal.num m) "normal"
          = ⟨Part000.calculateTotalVision (JSVal.num f) (JSVal.num m), 0⟩ ∧
        Part000.resolve (JSVal.num f) (JSVal.num m) "low-light"
          = ⟨2 * Part000.calculateTotalVision (JSVal.num f) (JSVal.num m), 0⟩ ∧
        Part000.resolve (JSVal.num f) (JSVal.num m) "darkvision"
          = ⟨0, Part000.calculateTotalVision (JSVal.num f) (JSVal.num m)⟩ ∧
        Part000.resolve (JSVal.num f) (JSVal.num m) "blindsight"
          = ⟨0, Part000.calculateTotalVision (JSVal.num f) (JSVal.num m)⟩ ∧
        Part000.resolve (JSVal.num f) (JSVal.num m) "tremorsense"
          = ⟨0, Part000.calculateTotalVision (JSVal.num f) (JSVal.num m)⟩) :=
  ⟨scripts_caps f m, part000_policy f m⟩

/-- Claim C3, witness: at feet 5000 and miles 0 the Scripts normal range is
capped at 1000. -/
theorem claim_C3_witness :
    (Scripts.resolve (JSVal.num 5000) (JSVal.num 0) "normal").range ≤ 1000 :=
  (claim_C3_clamping_divergence 5000 0 (by decide) (by decide)).1.1

/-- Claim C4: in both revisions every vision-type tag outside the five
enumerated ones silently falls back to the normal policy, and in particular
resolve at feet 100, miles 0 and the tag bogus-type returns range 100 and
darkness 0 in both revisions. -/
theorem claim_C4_fallback :
    (∀ (f m : ℚ), 0 ≤ f → 0 ≤ m → ∀ vt : String,
        vt ∉ (["normal", "low-light", "darkvision", "blindsight", "tremorsense"] : List String) →
        Scripts.resolve (JSVal.num f) (JSVal.num m) vt
            = Scripts.resolve (JSVal.num f) (JSVal.num m) "normal" ∧
          Part000.resolve (JSVal.num f) (JSVal.num m) vt
            = Part000.resolve (JSVal.num f) (JSVal.num m) "normal") ∧
      Scripts.resolve (JSVal.num 100) (JSVal.num 0) "bogus-type" = ⟨100, 0⟩ ∧
      Part000.resolve (JSVal.num 100) (JSVal.num 0) "bogus-type" = ⟨100, 0⟩ := by
  refine ⟨?_, ?_, ?_⟩
  · intro f m _ _ vt hvt
    simp only [List.mem_cons, List.not_mem_nil, or_false, not_or] at hvt
    obtain ⟨h1, h2, h3, h4, h5⟩ := hvt
    constructor
    · rw [scripts_resolve_eq, scripts_resolve_eq,
        scripts_ranges_fallback _ _ h1 h2 h3 h4 h5]
    · rw [part000_resolve_eq, part000_resolve_eq,
        part000_ranges_fallback _ _ h1 h2 h3 h4 h5]
  · rw [scripts_resolve_eq,
      scripts_ranges_fallback _ _ (by decide) (by decide) (by decide) (by decide) (by decide),
      scripts_ranges_normal, coerce_num, jsRound_zero]
    norm_num [Scripts.calculateTotalVision, coerce, jsRound, VisionRanges.mk.injEq, min_def]
  · rw [part000_resolve_eq,
      part000_ranges_fallback _ _ (by decide) (by decide) (by decide) (by decide) (by decide),
      part000_ranges_normal, coerce_num, jsRound_zero]
    norm_num [Part000.calculateTotalVision, coerce, jsRound, VisionRanges.mk.injEq]

/-- Claim C4, witness: the fallback equality instantiated at feet 7,
miles 0 and the unrecognized tag x-ray, for the Scripts revision. -/
theorem claim_C4_witness :
    Scripts.resolve (JSVal.num 7) (JSVal.num 0) "x-ray"
      = Scripts.resolve (JSVal.num 7) (JSVal.num 0) "normal" :=
  (claim_C4_fallback.1 7 0 (by decide) (by decide) "x-ray" (by decide)).1

/-- Claim C5, counterexample: at feet 0 and miles 0 the total is 0 and both
output fields are 0 for darkvision, so it is false that exactly one of the
two fields is non-zero, in either revision. -/
theorem claim_C5_counterexample :
    ¬ exactlyOneNonzero (Part000.resolve (JSVal.num 0) (JSVal.num 0) "darkvision") ∧
      ¬ exactlyOneNonzero (Scripts.resolve (JSVal.num 0) (JSVal.num 0) "darkvision") := by
  have h1 : Part000.resolve (JSVal.num 0) (JSVal.num 0) "darkvision" = ⟨0, 0⟩ := by
    rw [part000_resolve_eq, part000_ranges_darkvision, coerce_num, jsRound_zero]
    norm_num [Part000.calculateTotalVision, coerce, jsRound, VisionRanges.mk.injEq]
  have h2 : Scripts.resolve (JSVal.num 0) (JSVal.num 0) "darkvision" = ⟨0, 0⟩ := by
    rw [scripts_resolve_eq, scripts_ranges_darkvision, coerce_num, jsRound_zero]
    norm_num [Scripts.calculateTotalVision, coerce, jsRound, VisionRanges.mk.injEq, min_def]
  rw [h1, h2]
  simp [exactlyOneNonzero]

/-- Claim C5, amended: for non-negative feet and miles and a darkness-type
tag (darkvision, blindsight or tremorsense), exactly one of the two output
fields is non-zero whenever the rounded total is positive; at total 0 both
fields are 0. -/
theorem claim_C5_exactly_one_when_positive (f m : ℚ) (_hf : 0 ≤ f) (_hm : 0 ≤ m)
    (vt : String) (hvt : vt ∈ (["darkvision", "blindsight", "tremorsense"] : List String))
    (hpos : 0 < Part000.calculateTotalVision (JSVal.num f) (JSVal.num m)) :
    exactlyOneNonzero (Scripts.resolve (JSVal.num f) (JSVal.num m) vt) ∧
      exactlyOneNonzero (Part000.resolve (JSVal.num f) (JSVal.num m) vt) := by
  have hpos' : (1 : ℤ) ≤ Part000.calculateTotalVision (JSVal.num f) (JSVal.num m) := by omega
  have hq : (1 : ℚ) ≤ ((Part000.calculateTotalVision (JSVal.num f) (JSVal.num m) : ℤ) : ℚ) := by
    exact_mod_cast hpos'
  have hqS : (1 : ℚ) ≤ ((Scripts.calculateTotalVision (JSVal.num f) (JSVal.num m) : ℤ) : ℚ) := by
    rw [totals_agree]; exact hq
  have hPd : jsRound ((Part000.calculateTotalVision (JSVal.num f) (JSVal.num m) : ℤ) : ℚ) ≠ 0 := by
    rw [jsRound_intCast]; omega
  simp only [List.mem_cons, List.not_mem_nil, or_false] at hvt
  rcases hvt with rfl | rfl | rfl
  · constructor
    · rw [scripts_resolve_eq, scripts_ranges_darkvision, coerce_num]
      exact Or.inr ⟨jsRound_zero, ne_of_gt (jsRound_pos (le_min hqS (by norm_num)))⟩
    · rw [part000_resolve_eq, part000_ranges_darkvision, coerce_num]
      exact Or.inr ⟨jsRound_zero, hPd⟩
  · constructor
    · rw [scripts_resolve_eq, scripts_ranges_blindsight, coerce_num]
      exact Or.inr ⟨jsRound_zero, ne_of_gt (jsRound_pos (le_min hqS (by norm_num)))⟩
    · rw [part000_resolve_eq, part000_ranges_blindsight, coerce_num]
      exact Or.inr ⟨jsRound_zero, hPd⟩
  · constructor
    · rw [scripts_resolve_eq, scripts_ranges_tremorsense, coerce_num]
      exact Or.inl ⟨ne_of_gt (jsRound_pos (le_min hqS (by norm_num))), jsRound_zero⟩
    · rw [part000_resolve_eq, part000_ranges_tremorsense, coerce_num]
      exact Or.inr ⟨jsRound_zero, hPd⟩

/-- Claim C5, witness: the amended theorem applied at feet 30, miles 0 and
darkvision, in the Part000 revision. -/
theorem claim_C5_witness :
    exactlyOneNonzero (Part000.resolve (JSVal.num 30) (JSVal.num 0) "darkvision") :=
  (claim_C5_exactly_one_when_positive 30 0 (by decide) (by decide) "darkvision" (by decide)
    (by norm_num [Part000.calculateTotalVision, coerce, jsRound])).2

/-- Claim C6: for every input with non-negative coerced feet and miles and
any vision-type string, the resolver of either revision is a total function
(the embeddings return a record of two integers, so both fields are
integers and there is no failure outcome) and both output fields are
non-negative. -/
theorem claim_C6_safety (feet miles : JSVal) (hf : 0 ≤ coerce feet) (hm : 0 ≤ coerce miles)
    (vt : String) :
    0 ≤ (Scripts.resolve feet miles vt).range ∧
      0 ≤ (Scripts.resolve feet miles vt).darknessRange ∧
      0 ≤ (Part000.resolve feet miles vt).range ∧
      0 ≤ (Part000.resolve feet miles vt).darknessRange := by
  have hT : 0 ≤ Scripts.calculateTotalVision feet miles := ctv_nonneg feet miles hf hm
  have hTq : 0 ≤ coerce (JSVal.num ((Scripts.calculateTotalVision feet miles : ℤ) : ℚ)) := by
    rw [coerce_num]; exact_mod_cast hT
  have hTq' : 0 ≤ coerce (JSVal.num ((Part000.calculateTotalVision feet miles : ℤ) : ℚ)) := by
    rw [coerce_num, ← totals_agree]; exact_mod_cast hT
  have hS := scripts_ranges_nonneg _ hTq vt
  have hP := part000_ranges_nonneg _ hTq' vt
  exact ⟨hS.1, hS.2, hP.1, hP.2⟩

/-- Claim C6, witness: the safety theorem applied at feet 100, miles 0 and
darkvision. -/
theorem claim_C6_witness :
    0 ≤ (Scripts.resolve (JSVal.num 100) (JSVal.num 0) "darkvision").range :=
  (claim_C6_safety (JSVal.num 100) (JSVal.num 0) (by decide) (by decide) "darkvision").1

/-- Claim C7: for non-negative feet and miles, increasing feet or miles
never decreases either output field of the resolver, in either revision;
in particular the non-zero field never decreases. -/
theorem claim_C7_monotone (f₁ m₁ f₂ m₂ : ℚ) (_hf0 : 0 ≤ f₁) (_hm0 : 0 ≤ m₁)
    (hf : f₁ ≤ f₂) (hm : m₁ ≤ m₂) (vt : String) :
    (Scripts.resolve (JSVal.num f₁) (JSVal.num m₁) vt).range
        ≤ (Scripts.resolve (JSVal.num f₂) (JSVal.num m₂) vt).range ∧
      (Scripts.resolve (JSVal.num f₁) (JSVal.num m₁) vt).darknessRange
        ≤ (Scripts.resolve (JSVal.num f₂) (JSVal.num m₂) vt).darknessRange ∧
      (Part000.resolve (JSVal.num f₁) (JSVal.num m₁) vt).range
        ≤ (Part000.resolve (JSVal.num f₂) (JSVal.num m₂) vt).range ∧
      (Part000.resolve (JSVal.num f₁) (JSVal.num m₁) vt).darknessRange
        ≤ (Part000.resolve (JSVal.num f₂) (JSVal.num m₂) vt).darknessRange := by
  have hT : Scripts.calculateTotalVision (JSVal.num f₁) (JSVal.num m₁)
      ≤ Scripts.calculateTotalVision (JSVal.num f₂) (JSVal.num m₂) :=
    ctv_mono f₁ m₁ f₂ m₂ hf hm
  have hTq : ((Scripts.calculateTotalVision (JSVal.num f₁) (JSVal.num m₁) : ℤ) : ℚ)
      ≤ ((Scripts.calculateTotalVision (JSVal.num f₂) (JSVal.num m₂) : ℤ) : ℚ) := by
    exact_mod_cast hT
  have hTq' : ((Part000.calculateTotalVision (JSVal.num f₁) (JSVal.num m₁) : ℤ) : ℚ)
      ≤ ((Part000.calculateTotalVision (JSVal.num f₂) (JSVal.num m₂) : ℤ) : ℚ) := by
    rw [← totals_agree, ← totals_agree]; exact_mod_cast hT
  have hS := scripts_ranges_mono _ _ hTq vt
  have hP := part000_ranges_mono _ _ hTq' vt
  exact ⟨hS.1, hS.2, hP.1, hP.2⟩

/-- Claim C7, witness: monotonicity applied to the step from feet 100 to
feet 200 at miles 0 and normal vision. -/
theorem claim_C7_witness :
    (Scripts.resolve (JSVal.num 100) (JSVal.num 0) "normal").range
      ≤ (Scripts.resolve (JSVal.num 200) (JSVal.num 0) "normal").range :=
  (claim_C7_monotone 100 0 200 0 (by decide) (by decide) (by decide) (by decide) "normal").1

/-- Claim C8: the resolver is deterministic and referentially transparent.
In the state-passing embeddings of both revisions the result does not
depend on the module instance state, the state comes back unchanged, and a
second invocation with identical arguments, run from the state left by the
first, returns a result identical to the first. -/
theorem claim_C8_deterministic (s₁ s₂ : ModuleState) (feet miles : JSVal) (vt : String) :
    (Scripts.resolveM s₁ feet miles vt).1 = (Scripts.resolveM s₂ feet miles vt).1 ∧
      (Scripts.resolveM s₁ feet miles vt).2 = s₁ ∧
      (Scripts.resolveM ((Scripts.resolveM s₁ feet miles vt).2) feet miles vt).1
        = (Scripts.resolveM s₁ feet miles vt).1 ∧
      (Part000.resolveM s₁ feet miles vt).1 = (Part000.resolveM s₂ feet miles vt).1 ∧
      (Part000.resolveM s₁ feet miles vt).2 = s₁ ∧
      (Part000.resolveM ((Part000.resolveM s₁ feet miles vt).2) feet miles vt).1
        = (Part000.resolveM s₁ feet miles vt).1 :=
  ⟨rfl, rfl, rfl, rfl, rfl, rfl⟩

/-- Claim C9: the resolver does not coerce negative numeric inputs to 0.
At feet -100 and miles 0 both revisions compute total -100, and with normal
vision both return range -100, so non-negativity of the output indeed rests
on the caller-side precondition that feet and miles are non-negative. -/
theorem claim_C9_negative_passthrough :
    Scripts.calculateTotalVision (JSVal.num (-100)) (JSVal.num 0) = -100 ∧
      Part000.calculateTotalVision (JSVal.num (-100)) (JSVal.num 0) = -100 ∧
      (Scripts.resolve (JSVal.num (-100)) (JSVal.num 0) "normal").range = -100 ∧
      (Part000.resolve (JSVal.num (-100)) (JSVal.num 0) "normal").range = -100 := by
  have hS : Scripts.calculateTotalVision (JSVal.num (-100)) (JSVal.num 0) = -100 := by
    norm_num [Scripts.calculateTotalVision, coerce, jsRound]
  have hP : Part000.calculateTotalVision (JSVal.num (-100)) (JSVal.num 0) = -100 := by
    rw [← totals_agree]; exact hS
  refine ⟨hS, hP, ?_, ?_⟩
  · rw [scripts_resolve_eq, scripts_ranges_normal, coerce_num, hS]
    norm_num [jsRound, min_def]
  · rw [part000_resolve_eq, part000_ranges_normal, coerce_num, hP]
    norm_num [jsRound]

/-- Claim C10: the two revisions agree on the total-distance step — the two
calculateTotalVision embeddings return the same value on every pair of
inputs, that value is exactly the formula round(coerce(feet) plus
coerce(miles) times 5280) stated by the claim, and coercion maps a
non-numeric value to 0. -/
theorem claim_C10_total_agreement :
    (∀ feet miles : JSVal,
        Scripts.calculateTotalVision feet miles = Part000.calculateTotalVision feet miles ∧
          Scripts.calculateTotalVision feet miles = specTotalVisionFormula feet miles) ∧
      coerce JSVal.nonNumeric = 0 :=
  ⟨fun _ _ => ⟨rfl, rfl⟩, rfl⟩
